import Mathlib

/-!
Shallow embedding of the `terraform-provider-usgdns` repository:
the `usgdns` HTTP client (`internal/usgdns/usgdns.go`) and the provider
adapter layer (`internal/provider`).  HTTP transport is modelled as an
explicit function from requests to responses or transport errors; JSON
bodies are modelled as parsed JSON trees (`none` standing for a body that
is not valid JSON); Go errors are modelled by their message strings.
-/

set_option autoImplicit false

namespace UsgDns

/-- A JSON value, used to model request and response bodies. -/
inductive Json where
  | null
  | str (s : String)
  | num (n : Int)
  | bool (b : Bool)
  | obj (fields : List (String × Json))
  | arr (elems : List Json)

/-- Modelled from the spec: the `Record` struct comes from the external
`usg-dns-api/db` package (not under `src/`); the spec gives its shape as
`ID`, `Name`, `Target`, all strings, with wire fields `id`, `name`,
`target`. -/
structure Record where
  ID : String
  Name : String
  Target : String
  deriving DecidableEq, Repr

/-- First binding of a key in a JSON object, as `json.Unmarshal` matches
struct fields by tag. -/
def lookupField : List (String × Json) → String → Option Json
  | [], _ => none
  | (k, v) :: rest, key => if k = key then some v else lookupField rest key

/-- Decoding one string-typed struct field from a JSON object: a missing
or `null` field leaves the Go zero value `""`; a non-string value is a
type error. -/
def decodeStrField (fields : List (String × Json)) (key : String) : Except String String :=
  match lookupField fields key with
  | none => .ok ""
  | some .null => .ok ""
  | some (.str s) => .ok s
  | some _ => .error ("json: cannot unmarshal value into string field " ++ key)

/-- Modelled from the spec: decoding one `Record` from a JSON value, as
`json.Unmarshal` does for the external struct (wire fields `id`, `name`,
`target`); `null` yields the zero record, anything but an object fails. -/
def unmarshalRecordJson : Json → Except String Record
  | .null => .ok { ID := "", Name := "", Target := "" }
  | .obj fields => do
      let id ← decodeStrField fields "id"
      let name ← decodeStrField fields "name"
      let target ← decodeStrField fields "target"
      .ok { ID := id, Name := name, Target := target }
  | _ => .error "json: cannot unmarshal value into Record"

/-- `unmarshal` specialised to one `Record` (a `none` body is a body that
is not valid JSON, which `unmarshal` surfaces as an error). -/
def unmarshalRecord : Option Json → Except String Record
  | none => .error "unable to unmarshal the body"
  | some j => unmarshalRecordJson j

/-- `unmarshal` specialised to `[]Record`: the body must be a JSON array
(or `null`, giving the empty list), each element decoding as a `Record`. -/
def unmarshalRecords : Option Json → Except String (List Record)
  | none => .error "unable to unmarshal the body"
  | some .null => .ok []
  | some (.arr elems) => elems.mapM unmarshalRecordJson
  | some _ => .error "json: cannot unmarshal value into list of Record"

/-- `getError` (usgdns.go lines 166-174): decode the response body as an
object with a string field `message`; returns the message (possibly `""`)
or a decode error. -/
def getError : Option Json → Except String String
  | none => .error "unable to unmarshal the body"
  | some .null => .ok ""
  | some (.obj fields) => decodeStrField fields "message"
  | some _ => .error "json: cannot unmarshal value into error struct"

/-- Modelled from the spec: the JSON marshalling of the external
`Record` struct with only `Name` and `Target` set, as sent by create and
update; the spec gives the wire body as an object with fields `name` and
`target`. -/
def recordBody (name target : String) : Json :=
  .obj [("name", .str name), ("target", .str target)]

/-- An HTTP request as built by `Client.do`: method, full URL, the value
of the `Authorization` header (the only header the client sets), and the
JSON request body if any. -/
structure HttpRequest where
  method : String
  url : String
  authorization : String
  body : Option Json

/-- An HTTP response: status code and body (`none` when the body is not
valid JSON). -/
structure HttpResponse where
  status : Nat
  body : Option Json

/-- The HTTP transport (`http.DefaultClient.Do`): an arbitrary function
from a request to a response or a transport error. -/
def Transport : Type := HttpRequest → Except String HttpResponse

/-- The `usgdns.Client` struct: base URL and token. -/
structure Client where
  url : String
  token : String
  deriving DecidableEq, Repr

/-- `strings.TrimSuffix(s, suffix)`: drop `suffix` once if `s` ends with
it (expressed on the underlying character lists). -/
def trimSuffix (s suffix : String) : String :=
  if suffix.data.isSuffixOf s.data then
    { data := s.data.take (s.data.length - suffix.data.length) }
  else s

/-- `NewClient` (usgdns.go lines 23-28): stores the URL with a trailing
slash stripped and the token; never fails. -/
def NewClient (url token : String) : Except String Client :=
  .ok { url := trimSuffix url "/", token := token }

/-- The request built by `Client.do` (usgdns.go lines 30-49): the URL is
the base concatenated with the endpoint path (the `url.Parse` /
`String()` round trip is modelled as the identity on the concatenation),
and the `Authorization` header is set to the raw token. -/
def Client.buildRequest (c : Client) (method uri : String) (body : Option Json) : HttpRequest :=
  { method := method, url := c.url ++ uri, authorization := c.token, body := body }

/-- The request issued by `GetRecords`. -/
def Client.listRequest (c : Client) : HttpRequest :=
  c.buildRequest "GET" "/records" none

/-- The request issued by `CreateRecord`. -/
def Client.createRequest (c : Client) (name target : String) : HttpRequest :=
  c.buildRequest "POST" "/records" (some (recordBody name target))

/-- The request issued by `GetRecord`. -/
def Client.getRequest (c : Client) (id : String) : HttpRequest :=
  c.buildRequest "GET" ("/records/" ++ id) none

/-- The request issued by `UpdateRecord`. -/
def Client.updateRequest (c : Client) (id name target : String) : HttpRequest :=
  c.buildRequest "PUT" ("/records/" ++ id) (some (recordBody name target))

/-- The request issued by `DeleteRecord`. -/
def Client.deleteRequest (c : Client) (id : String) : HttpRequest :=
  c.buildRequest "DELETE" ("/records/" ++ id) none

/-- `GetRecords` (usgdns.go lines 54-69): GET `/records`, expects 200
(no error-body enrichment), decodes the body as a list of records. -/
def Client.GetRecords (c : Client) (transport : Transport) : Except String (List Record) :=
  match transport c.listRequest with
  | .error e => .error ("error while executing the request: " ++ e)
  | .ok res =>
      if res.status = 200 then
        match unmarshalRecords res.body with
        | .error e => .error ("unable to get the result: " ++ e)
        | .ok records => .ok records
      else
        .error ("error while executing the request: unexpected status code: " ++ toString res.status)

/-- `CreateRecord` (usgdns.go lines 71-94): POST `/records` with body
`name`/`target`, expects 201; on another status the error is enriched
with the body's `message` field when it decodes and is non-empty. -/
def Client.CreateRecord (c : Client) (transport : Transport) (name target : String) :
    Except String Record :=
  match transport (c.createRequest name target) with
  | .error e => .error ("error while executing the request: " ++ e)
  | .ok res =>
      if res.status = 201 then
        match unmarshalRecord res.body with
        | .error e => .error ("unable to get the result: " ++ e)
        | .ok record => .ok record
      else
        match getError res.body with
        | .ok m =>
            if m = "" then
              .error ("error while executing the request: unexpected status code: "
                ++ toString res.status)
            else
              .error ("error while executing the request: unexpected status code: "
                ++ toString res.status ++ ": " ++ m)
        | .error _ =>
            .error ("error while executing the request: unexpected status code: "
              ++ toString res.status)

/-- `GetRecord` (usgdns.go lines 96-116): GET `/records/id`, expects
200; same error enrichment as create. -/
def Client.GetRecord (c : Client) (transport : Transport) (id : String) :
    Except String Record :=
  match transport (c.getRequest id) with
  | .error e => .error ("error while executing the request: " ++ e)
  | .ok res =>
      if res.status = 200 then
        match unmarshalRecord res.body with
        | .error e => .error ("unable to get the result: " ++ e)
        | .ok record => .ok record
      else
        match getError res.body with
        | .ok m =>
            if m = "" then
              .error ("error while executing the request: unexpected status code: "
                ++ toString res.status)
            else
              .error ("error while executing the request: unexpected status code: "
                ++ toString res.status ++ ": " ++ m)
        | .error _ =>
            .error ("error while executing the request: unexpected status code: "
              ++ toString res.status)

/-- `UpdateRecord` (usgdns.go lines 118-141): PUT `/records/id` with
body `name`/`target`, expects 200; same error enrichment as create. -/
def Client.UpdateRecord (c : Client) (transport : Transport) (id name target : String) :
    Except String Record :=
  match transport (c.updateRequest id name target) with
  | .error e => .error ("error while executing the request: " ++ e)
  | .ok res =>
      if res.status = 200 then
        match unmarshalRecord res.body with
        | .error e => .error ("unable to get the result: " ++ e)
        | .ok record => .ok record
      else
        match getError res.body with
        | .ok m =>
            if m = "" then
              .error ("error while executing the request: unexpected status code: "
                ++ toString res.status)
            else
              .error ("error while executing the request: unexpected status code: "
                ++ toString res.status ++ ": " ++ m)
        | .error _ =>
            .error ("error while executing the request: unexpected status code: "
              ++ toString res.status)

/-- `DeleteRecord` (usgdns.go lines 143-153): DELETE `/records/id`,
expects 204, response body never decoded, returns nothing on success. -/
def Client.DeleteRecord (c : Client) (transport : Transport) (id : String) :
    Except String Unit :=
  match transport (c.deleteRequest id) with
  | .error e => .error ("error while executing the request: " ++ e)
  | .ok res =>
      if res.status = 204 then
        .ok ()
      else
        .error ("error while executing the request: unexpected status code: " ++ toString res.status)

/-! ## Provider adapter layer (`internal/provider`) -/

/-- A Terraform framework string attribute value: null, unknown, or a
known string. -/
inductive TFString where
  | null
  | unknown
  | value (s : String)
  deriving DecidableEq, Repr

/-- `types.String.IsNull`. -/
def TFString.isNull : TFString → Bool
  | .null => true
  | _ => false

/-- `types.String.IsUnknown`. -/
def TFString.isUnknown : TFString → Bool
  | .unknown => true
  | _ => false

/-- `types.String.ValueString`: the known value, `""` for null/unknown. -/
def TFString.valueString : TFString → String
  | .value s => s
  | _ => ""

/-- A diagnostic: attribute path for `AddAttributeError` (none for
`AddError`), summary and detail strings. -/
structure Diag where
  attrPath : Option String
  summary : String
  detail : String
  deriving DecidableEq, Repr

/-- `usgDnsProviderModel`: the provider configuration block. -/
structure usgDnsProviderModel where
  URL : TFString
  Token : TFString
  deriving DecidableEq, Repr

/-- The two environment variables read by `Configure`; `os.Getenv`
returns `""` for an unset variable, so an unset variable is modelled as
the empty string. -/
structure Env where
  USG_DNS_URL : String
  USG_DNS_TOKEN : String
  deriving DecidableEq, Repr

/-- The diagnostic for an unknown `url` attribute (part_000 lines 89-96). -/
def unknownUrlDiag : Diag :=
  { attrPath := some "url"
    summary := "Unknown usg-dns API URL"
    detail := "The provider cannot create the usg-dns API client as there is an unknown configuration value for the URL. Either target apply the source of the value first, set the value statically in the configuration, or use the USG_DNS_URL environment variable." }

/-- The diagnostic for an unknown `token` attribute (part_000 lines 98-105). -/
def unknownTokenDiag : Diag :=
  { attrPath := some "token"
    summary := "Unknown usg-dns API token"
    detail := "The provider cannot create the usg-dns API client as there is an unknown configuration value for the token. Either target apply the source of the value first, set the value statically in the configuration, or use the USG_DNS_TOKEN environment variable." }

/-- The diagnostic for a missing `url` (part_000 lines 128-136). -/
def missingUrlDiag : Diag :=
  { attrPath := some "url"
    summary := "Missing usg-dns API URL"
    detail := "The provider cannot create the usg-dns API client as there is a missing or empty value for the URL. Set the host value in the configuration or use the USG_DNS_URL environment variable. If either is already set, ensure the value is not empty." }

/-- The diagnostic for a missing `token` (part_000 lines 138-146). -/
def missingTokenDiag : Diag :=
  { attrPath := some "token"
    summary := "Missing usg-dns API token"
    detail := "The provider cannot create the usg-dns API client as there is a missing or empty value for the token. Set the username value in the configuration or use the USG_DNS_TOKEN environment variable. If either is already set, ensure the value is not empty." }

/-- The diagnostic reported when `NewClient` fails (part_000 lines 154-162). -/
def clientErrorDiag (e : String) : Diag :=
  { attrPath := none
    summary := "Unable to Create usg-dns API Client"
    detail := "An unexpected error occurred when creating the usg-dns API client. If the error is not clear, please contact the provider developers.\n\nusg-dns Client Error: " ++ e }

/-- The resolved URL (part_000 lines 114-119): the environment value,
overridden by the configuration value when it is not null. -/
def resolvedUrl (env : Env) (config : usgDnsProviderModel) : String :=
  if config.URL.isNull then env.USG_DNS_URL else config.URL.valueString

/-- The resolved token (part_000 lines 115-123): the environment value,
overridden by the configuration value when it is not null. -/
def resolvedToken (env : Env) (config : usgDnsProviderModel) : String :=
  if config.Token.isNull then env.USG_DNS_TOKEN else config.Token.valueString

/-- `Configure` (part_000 lines 77-168), after the initial config
decode: the unknown-value checks (returning early when either fires),
then URL/token resolution, then the missing-value checks (again
returning early), then `NewClient`.  Returns the accumulated diagnostics
and the client stored into the response, if any. -/
def Configure (env : Env) (config : usgDnsProviderModel) : List Diag × Option Client :=
  let unknownDiags :=
    (if config.URL.isUnknown then [unknownUrlDiag] else [])
      ++ (if config.Token.isUnknown then [unknownTokenDiag] else [])
  if unknownDiags.isEmpty then
    let url := resolvedUrl env config
    let token := resolvedToken env config
    let missingDiags :=
      (if url = "" then [missingUrlDiag] else [])
        ++ (if token = "" then [missingTokenDiag] else [])
    if missingDiags.isEmpty then
      match NewClient url token with
      | .error e => ([clientErrorDiag e], none)
      | .ok client => ([], some client)
    else
      (missingDiags, none)
  else
    (unknownDiags, none)

/-- `recordResourceModel` (types.go lines 9-13): the record resource's
state/plan shape. -/
structure recordResourceModel where
  ID : TFString
  Name : TFString
  Target : TFString
  deriving DecidableEq, Repr

/-- `recordResource.Create` (records_data_source.go resource part,
lines 103-132), after the plan decode: calls `CreateRecord` with the
plan's name and target; on success persists ID/Name/Target from the
returned record, on failure reports an error and persists no state. -/
def recordResource.Create (c : Client) (transport : Transport) (plan : recordResourceModel) :
    List Diag × Option recordResourceModel :=
  match c.CreateRecord transport plan.Name.valueString plan.Target.valueString with
  | .error e =>
      ([{ attrPath := none, summary := "Unable to create the usg-dns record", detail := e }], none)
  | .ok record =>
      ([], some { ID := .value record.ID, Name := .value record.Name
                  Target := .value record.Target })

/-- `recordResource.Read` (lines 135-163), after the state decode: calls
`GetRecord` with the state's ID; on success overwrites Name and Target
(ID kept), on failure reports a read error and leaves the state as it
was (the response state starts as the request state and is not touched
on the error path). -/
def recordResource.Read (c : Client) (transport : Transport) (state : recordResourceModel) :
    List Diag × recordResourceModel :=
  match c.GetRecord transport state.ID.valueString with
  | .error e =>
      ([{ attrPath := none, summary := "Error Reading usg-dns record"
          detail := "Could not read usg-dns record ID " ++ state.ID.valueString ++ ": " ++ e }],
        state)
  | .ok record =>
      ([], { state with Name := .value record.Name, Target := .value record.Target })

/-- `recordResource.Update` (lines 166-204), after the state and plan
decodes: calls `UpdateRecord` with the state's ID and the plan's name
and target; on success persists ID/Name/Target from the returned record,
on failure reports an error and leaves the state untouched. -/
def recordResource.Update (c : Client) (transport : Transport)
    (state plan : recordResourceModel) : List Diag × Option recordResourceModel :=
  match c.UpdateRecord transport state.ID.valueString plan.Name.valueString
      plan.Target.valueString with
  | .error e =>
      ([{ attrPath := none, summary := "Error Updating usg-dns record"
          detail := "Could not update record, unexpected error: " ++ e }], none)
  | .ok record =>
      ([], some { ID := .value record.ID, Name := .value record.Name
                  Target := .value record.Target })

/-- `recordResource.Delete` (lines 207-225), after the state decode:
calls `DeleteRecord` with the state's ID; reports an error on failure. -/
def recordResource.Delete (c : Client) (transport : Transport) (state : recordResourceModel) :
    List Diag :=
  match c.DeleteRecord transport state.ID.valueString with
  | .error e =>
      [{ attrPath := none, summary := "Error Deleting usg-dns record"
         detail := "Could not delete record, unexpected error: " ++ e }]
  | .ok _ => []

/-- `recordsDataSource.Read` (records_data_source.go lines 88-116):
calls `GetRecords` and maps every returned record, in order, into a
`recordResourceModel`; on failure reports an error and sets no state. -/
def recordsDataSource.Read (c : Client) (transport : Transport) :
    List Diag × Option (List recordResourceModel) :=
  match c.GetRecords transport with
  | .error e =>
      ([{ attrPath := none, summary := "Unable to fetch the usg-dns records", detail := e }], none)
  | .ok records =>
      ([], some (records.map fun r =>
        { ID := .value r.ID, Name := .value r.Name, Target := .value r.Target }))

/-! ## Claim theorems -/

/-- C7: `NewClient` stores the configured URL with a trailing slash
stripped, and every client operation issues its request to that
normalized base concatenated with the operation's endpoint path (create
issuing POST to `base/records`). -/
theorem newClient_normalizes_base_and_endpoints (url token id name target : String) (c : Client)
    (h : NewClient url token = .ok c) :
    c.url = trimSuffix url "/" ∧ c.token = token ∧
    (c.listRequest.method = "GET" ∧ c.listRequest.url = c.url ++ "/records") ∧
    ((c.createRequest name target).method = "POST" ∧
      (c.createRequest name target).url = c.url ++ "/records") ∧
    ((c.getRequest id).method = "GET" ∧
      (c.getRequest id).url = c.url ++ ("/records/" ++ id)) ∧
    ((c.updateRequest id name target).method = "PUT" ∧
      (c.updateRequest id name target).url = c.url ++ ("/records/" ++ id)) ∧
    ((c.deleteRequest id).method = "DELETE" ∧
      (c.deleteRequest id).url = c.url ++ ("/records/" ++ id)) := by
  have hc : { url := trimSuffix url "/", token := token : Client } = c := by
    simpa [NewClient] using h
  subst hc
  exact ⟨rfl, rfl, ⟨rfl, rfl⟩, ⟨rfl, rfl⟩, ⟨rfl, rfl⟩, ⟨rfl, rfl⟩, ⟨rfl, rfl⟩⟩

/-- Witness for C7 at the spec's example: the base URL
`https://dns.example.com/` is normalized and create posts to
`https://dns.example.com/records`. -/
theorem newClient_normalizes_base_and_endpoints_witness :
    (Client.createRequest ⟨"https://dns.example.com", "secret"⟩ "www" "1.2.3.4").method = "POST" ∧
    (Client.createRequest ⟨"https://dns.example.com", "secret"⟩ "www" "1.2.3.4").url
      = "https://dns.example.com" ++ "/records" :=
  (newClient_normalizes_base_and_endpoints "https://dns.example.com/" "secret" "7" "www"
    "1.2.3.4" ⟨"https://dns.example.com", "secret"⟩ (by rfl)).2.2.2.1

/-- C8: every client operation sets the `Authorization` header of its
request to exactly the configured token, with no scheme prefix. -/
theorem all_requests_use_raw_token_authorization (c : Client) (id name target : String) :
    c.listRequest.authorization = c.token ∧
    (c.createRequest name target).authorization = c.token ∧
    (c.getRequest id).authorization = c.token ∧
    (c.updateRequest id name target).authorization = c.token ∧
    (c.deleteRequest id).authorization = c.token :=
  ⟨rfl, rfl, rfl, rfl, rfl⟩

/-- C9: `DeleteRecord` issues DELETE `/records/id`, succeeds exactly on
status 204, returns the unexpected-status error on any other status, and
never looks at the response body. -/
theorem deleteRecord_expects_204 (c : Client) (id : String) (res : HttpResponse) :
    (c.deleteRequest id).method = "DELETE" ∧
    (c.deleteRequest id).url = c.url ++ ("/records/" ++ id) ∧
    (c.DeleteRecord (fun _ => .ok res) id = .ok () ↔ res.status = 204) ∧
    (res.status ≠ 204 →
      c.DeleteRecord (fun _ => .ok res) id =
        .error ("error while executing the request: unexpected status code: "
          ++ toString res.status)) ∧
    (∀ b, c.DeleteRecord (fun _ => .ok { res with body := b }) id
        = c.DeleteRecord (fun _ => .ok res) id) := by
  refine ⟨rfl, rfl, ?_, ?_, fun b => rfl⟩
  · by_cases hs : res.status = 204 <;> simp [Client.DeleteRecord, hs]
  · intro hs
    simp [Client.DeleteRecord, hs]

/-- Witness for C9: deleting against a transport answering 404 yields
the unexpected-status error, and answering 204 succeeds. -/
theorem deleteRecord_expects_204_witness :
    Client.DeleteRecord ⟨"http://h", "t"⟩ (fun _ => .ok ⟨404, none⟩) "7" =
      .error ("error while executing the request: unexpected status code: "
        ++ toString (404 : Nat)) ∧
    Client.DeleteRecord ⟨"http://h", "t"⟩ (fun _ => .ok ⟨204, none⟩) "7" = .ok () :=
  ⟨(deleteRecord_expects_204 ⟨"http://h", "t"⟩ "7" ⟨404, none⟩).2.2.2.1 (by decide),
    ((deleteRecord_expects_204 ⟨"http://h", "t"⟩ "7" ⟨204, none⟩).2.2.1).mpr rfl⟩

/-- C1: for `CreateRecord`, `GetRecord` and `UpdateRecord`, a response
status different from the expected success status yields an error whose
text carries `unexpected status code: status`; when the body decodes as
an object with a non-empty string field `message` that message is
appended, and when the body fails to decode or the message is empty the
status error stands alone (the decode failure is not surfaced). -/
theorem status_error_enrichment (c : Client) (res : HttpResponse) (id name target : String) :
    (res.status ≠ 201 →
      (∀ m, getError res.body = .ok m → m ≠ "" →
        c.CreateRecord (fun _ => .ok res) name target =
          .error ("error while executing the request: unexpected status code: "
            ++ toString res.status ++ ": " ++ m)) ∧
      ((∀ m, getError res.body = .ok m → m = "") →
        c.CreateRecord (fun _ => .ok res) name target =
          .error ("error while executing the request: unexpected status code: "
            ++ toString res.status))) ∧
    (res.status ≠ 200 →
      (∀ m, getError res.body = .ok m → m ≠ "" →
        c.GetRecord (fun _ => .ok res) id =
          .error ("error while executing the request: unexpected status code: "
            ++ toString res.status ++ ": " ++ m)) ∧
      ((∀ m, getError res.body = .ok m → m = "") →
        c.GetRecord (fun _ => .ok res) id =
          .error ("error while executing the request: unexpected status code: "
            ++ toString res.status))) ∧
    (res.status ≠ 200 →
      (∀ m, getError res.body = .ok m → m ≠ "" →
        c.UpdateRecord (fun _ => .ok res) id name target =
          .error ("error while executing the request: unexpected status code: "
            ++ toString res.status ++ ": " ++ m)) ∧
      ((∀ m, getError res.body = .ok m → m = "") →
        c.UpdateRecord (fun _ => .ok res) id name target =
          .error ("error while executing the request: unexpected status code: "
            ++ toString res.status))) := by
  refine ⟨fun hst => ⟨?_, ?_⟩, fun hst => ⟨?_, ?_⟩, fun hst => ⟨?_, ?_⟩⟩
  · intro m hm hne
    simp [Client.CreateRecord, hst, hm, hne]
  · intro hall
    cases h : getError res.body with
    | error e => simp [Client.CreateRecord, hst, h]
    | ok m =>
        have hm := hall m h
        subst hm
        simp [Client.CreateRecord, hst, h]
  · intro m hm hne
    simp [Client.GetRecord, hst, hm, hne]
  · intro hall
    cases h : getError res.body with
    | error e => simp [Client.GetRecord, hst, h]
    | ok m =>
        have hm := hall m h
        subst hm
        simp [Client.GetRecord, hst, h]
  · intro m hm hne
    simp [Client.UpdateRecord, hst, hm, hne]
  · intro hall
    cases h : getError res.body with
    | error e => simp [Client.UpdateRecord, hst, h]
    | ok m =>
        have hm := hall m h
        subst hm
        simp [Client.UpdateRecord, hst, h]

/-- Witness for C1 at the spec's example: create receiving status 400
with body carrying message `name already exists` produces an error with
both the status text and the message; with an undecodable body the
status error stands alone. -/
theorem status_error_enrichment_witness :
    Client.CreateRecord ⟨"https://dns.example.com", "secret"⟩
        (fun _ => .ok ⟨400, some (.obj [("message", .str "name already exists")])⟩)
        "www" "1.2.3.4" =
      .error ("error while executing the request: unexpected status code: "
        ++ toString (400 : Nat) ++ ": " ++ "name already exists") ∧
    Client.GetRecord ⟨"https://dns.example.com", "secret"⟩ (fun _ => .ok ⟨500, none⟩) "7" =
      .error ("error while executing the request: unexpected status code: "
        ++ toString (500 : Nat)) :=
  ⟨((status_error_enrichment ⟨"https://dns.example.com", "secret"⟩
        ⟨400, some (.obj [("message", .str "name already exists")])⟩ "7" "www" "1.2.3.4").1
      (by decide)).1 "name already exists" (by rfl) (by decide),
    ((status_error_enrichment ⟨"https://dns.example.com", "secret"⟩
        ⟨500, none⟩ "7" "www" "1.2.3.4").2.1 (by decide)).2 (fun m hm => by cases hm)⟩

/-- C4: the resource Read overwrites only Name and Target of the state
with the record returned by `GetRecord` (the ID is kept), and when
`GetRecord` fails it reports a read-error diagnostic and returns the
starting state unchanged. -/
theorem read_overwrites_name_target_keeps_id (c : Client) (transport : Transport)
    (state : recordResourceModel) :
    (∀ record, c.GetRecord transport state.ID.valueString = .ok record →
      recordResource.Read c transport state =
        ([], { ID := state.ID, Name := .value record.Name, Target := .value record.Target })) ∧
    (∀ e, c.GetRecord transport state.ID.valueString = .error e →
      recordResource.Read c transport state =
        ([{ attrPath := none, summary := "Error Reading usg-dns record"
            detail := "Could not read usg-dns record ID " ++ state.ID.valueString ++ ": " ++ e }],
          state)) := by
  constructor
  · intro record h
    simp [recordResource.Read, h]
  · intro e h
    simp [recordResource.Read, h]

/-- Witness for C4: a successful read refreshes Name and Target and
keeps the ID; a failing read leaves the state as it was and reports the
read error. -/
theorem read_overwrites_name_target_keeps_id_witness :
    recordResource.Read ⟨"http://h", "t"⟩
        (fun _ => .ok ⟨200, some (.obj [("id", .str "1"), ("name", .str "www"),
          ("target", .str "1.2.3.4")])⟩)
        ⟨.value "1", .value "old", .value "oldtarget"⟩ =
      ([], ⟨.value "1", .value "www", .value "1.2.3.4"⟩) ∧
    (recordResource.Read ⟨"http://h", "t"⟩ (fun _ => .error "connection refused")
        ⟨.value "1", .value "old", .value "oldtarget"⟩).2 =
      ⟨.value "1", .value "old", .value "oldtarget"⟩ :=
  ⟨(read_overwrites_name_target_keeps_id ⟨"http://h", "t"⟩
      (fun _ => .ok ⟨200, some (.obj [("id", .str "1"), ("name", .str "www"),
        ("target", .str "1.2.3.4")])⟩)
      ⟨.value "1", .value "old", .value "oldtarget"⟩).1 ⟨"1", "www", "1.2.3.4"⟩ (by rfl),
    congrArg Prod.snd
      ((read_overwrites_name_target_keeps_id ⟨"http://h", "t"⟩
        (fun _ => .error "connection refused")
        ⟨.value "1", .value "old", .value "oldtarget"⟩).2
        "error while executing the request: connection refused" (by rfl))⟩

/-- C5: the resource Create, on success of `CreateRecord`, persists a
state whose ID, Name and Target are exactly the returned record's
fields; on failure it reports an error diagnostic and persists no state. -/
theorem create_persists_record_or_nothing (c : Client) (transport : Transport)
    (plan : recordResourceModel) :
    (∀ record, c.CreateRecord transport plan.Name.valueString plan.Target.valueString
        = .ok record →
      recordResource.Create c transport plan =
        ([], some { ID := .value record.ID, Name := .value record.Name
                    Target := .value record.Target })) ∧
    (∀ e, c.CreateRecord transport plan.Name.valueString plan.Target.valueString = .error e →
      recordResource.Create c transport plan =
        ([{ attrPath := none, summary := "Unable to create the usg-dns record", detail := e }],
          none)) := by
  constructor
  · intro record h
    simp [recordResource.Create, h]
  · intro e h
    simp [recordResource.Create, h]

/-- Witness for C5: a successful create persists exactly the returned
record; a failing create persists nothing. -/
theorem create_persists_record_or_nothing_witness :
    recordResource.Create ⟨"http://h", "t"⟩
        (fun _ => .ok ⟨201, some (.obj [("id", .str "42"), ("name", .str "www"),
          ("target", .str "1.2.3.4")])⟩)
        ⟨.unknown, .value "www", .value "1.2.3.4"⟩ =
      ([], some ⟨.value "42", .value "www", .value "1.2.3.4"⟩) ∧
    (recordResource.Create ⟨"http://h", "t"⟩ (fun _ => .error "connection refused")
        ⟨.unknown, .value "www", .value "1.2.3.4"⟩).2 = none :=
  ⟨(create_persists_record_or_nothing ⟨"http://h", "t"⟩
      (fun _ => .ok ⟨201, some (.obj [("id", .str "42"), ("name", .str "www"),
        ("target", .str "1.2.3.4")])⟩)
      ⟨.unknown, .value "www", .value "1.2.3.4"⟩).1 ⟨"42", "www", "1.2.3.4"⟩ (by rfl),
    congrArg Prod.snd
      ((create_persists_record_or_nothing ⟨"http://h", "t"⟩
        (fun _ => .error "connection refused")
        ⟨.unknown, .value "www", .value "1.2.3.4"⟩).2
        "error while executing the request: connection refused" (by rfl))⟩

/-- C6: the data-source Read turns the list returned by `GetRecords`
into a result list of the same length and order, the i-th element
carrying the i-th record's id, name and target; nothing is filtered,
reordered or deduplicated. -/
theorem records_read_maps_full_list (c : Client) (transport : Transport)
    (records : List Record) (h : c.GetRecords transport = .ok records) :
    ∃ l, recordsDataSource.Read c transport = ([], some l) ∧
      l.length = records.length ∧
      ∀ i (hl : i < l.length) (hr : i < records.length),
        l[i].ID = .value records[i].ID ∧
        l[i].Name = .value records[i].Name ∧
        l[i].Target = .value records[i].Target := by
  refine ⟨records.map fun r =>
    { ID := .value r.ID, Name := .value r.Name, Target := .value r.Target }, ?_, ?_, ?_⟩
  · simp [recordsDataSource.Read, h]
  · simp
  · intro i hl hr
    simp

/-- Witness for C6: a two-record server list maps to the two-element
result list in server order. -/
theorem records_read_maps_full_list_witness :
    recordsDataSource.Read ⟨"http://h", "t"⟩
        (fun _ => .ok ⟨200, some (.arr
          [.obj [("id", .str "1"), ("name", .str "a"), ("target", .str "b")],
           .obj [("id", .str "2"), ("name", .str "c"), ("target", .str "d")]])⟩) =
      ([], some [⟨.value "1", .value "a", .value "b"⟩,
                 ⟨.value "2", .value "c", .value "d"⟩]) ∧
    (∃ l, recordsDataSource.Read ⟨"http://h", "t"⟩
        (fun _ => .ok ⟨200, some (.arr
          [.obj [("id", .str "1"), ("name", .str "a"), ("target", .str "b")],
           .obj [("id", .str "2"), ("name", .str "c"), ("target", .str "d")]])⟩) =
      ([], some l) ∧ l.length = 2) := by
  refine ⟨by rfl, ?_⟩
  obtain ⟨l, h1, h2, -⟩ := records_read_maps_full_list ⟨"http://h", "t"⟩
    (fun _ => .ok ⟨200, some (.arr
      [.obj [("id", .str "1"), ("name", .str "a"), ("target", .str "b")],
       .obj [("id", .str "2"), ("name", .str "c"), ("target", .str "d")]])⟩)
    [⟨"1", "a", "b"⟩, ⟨"2", "c", "d"⟩] (by rfl)
  exact ⟨l, h1, by simpa using h2⟩

/-- C2: configuration resolution precedence: a null config value falls
back to the environment variable, an explicit config value wins over the
environment, an empty resolved URL or token produces the corresponding
missing diagnostic with no client constructed, and non-empty resolved
values are handed to `NewClient` to build the stored client. -/
theorem configure_resolution_precedence (env : Env) (config : usgDnsProviderModel)
    (hu : config.URL.isUnknown = false) (ht : config.Token.isUnknown = false) :
    (config.URL = .null → resolvedUrl env config = env.USG_DNS_URL) ∧
    (∀ s, config.URL = .value s → resolvedUrl env config = s) ∧
    (config.Token = .null → resolvedToken env config = env.USG_DNS_TOKEN) ∧
    (∀ s, config.Token = .value s → resolvedToken env config = s) ∧
    (resolvedUrl env config = "" →
      (Configure env config).2 = none ∧ missingUrlDiag ∈ (Configure env config).1) ∧
    (resolvedToken env config = "" →
      (Configure env config).2 = none ∧ missingTokenDiag ∈ (Configure env config).1) ∧
    (resolvedUrl env config ≠ "" → resolvedToken env config ≠ "" →
      ∃ cl, NewClient (resolvedUrl env config) (resolvedToken env config) = .ok cl ∧
        (Configure env config).2 = some cl) := by
  refine ⟨?_, ?_, ?_, ?_, ?_, ?_, ?_⟩
  · intro h
    simp [resolvedUrl, h, TFString.isNull]
  · intro s h
    simp [resolvedUrl, h, TFString.isNull, TFString.valueString]
  · intro h
    simp [resolvedToken, h, TFString.isNull]
  · intro s h
    simp [resolvedToken, h, TFString.isNull, TFString.valueString]
  · intro hurl
    by_cases htok : resolvedToken env config = "" <;>
      simp [Configure, hu, ht, hurl, htok]
  · intro htok
    by_cases hurl : resolvedUrl env config = "" <;>
      simp [Configure, hu, ht, hurl, htok]
  · intro hurl htok
    refine ⟨{ url := trimSuffix (resolvedUrl env config) "/"
              token := resolvedToken env config }, rfl, ?_⟩
    simp [Configure, hu, ht, hurl, htok, NewClient]

/-- Witness for C2: with a null config URL, a set `USG_DNS_URL` and an
explicit config token, the client is built from the environment URL and
the config token (which wins over the environment token). -/
theorem configure_resolution_precedence_witness :
    resolvedUrl ⟨"http://envurl", "envtok"⟩ ⟨.null, .value "cfgtok"⟩ = "http://envurl" ∧
    resolvedToken ⟨"http://envurl", "envtok"⟩ ⟨.null, .value "cfgtok"⟩ = "cfgtok" ∧
    (Configure ⟨"http://envurl", "envtok"⟩ ⟨.null, .value "cfgtok"⟩).2 =
      some ⟨"http://envurl", "cfgtok"⟩ := by
  have h := configure_resolution_precedence ⟨"http://envurl", "envtok"⟩
    ⟨.null, .value "cfgtok"⟩ rfl rfl
  obtain ⟨cl, hcl, hc⟩ := h.2.2.2.2.2.2 (by decide) (by decide)
  refine ⟨h.1 rfl, h.2.2.2.1 "cfgtok" rfl, ?_⟩
  have : cl = ⟨"http://envurl", "cfgtok"⟩ := by
    have := hcl.symm.trans (by rfl :
      NewClient (resolvedUrl ⟨"http://envurl", "envtok"⟩ ⟨.null, .value "cfgtok"⟩)
          (resolvedToken ⟨"http://envurl", "envtok"⟩ ⟨.null, .value "cfgtok"⟩) =
        .ok ⟨"http://envurl", "cfgtok"⟩)
    simpa using this
  exact this ▸ hc

/-- Counterexample for C3: with an unknown URL and a missing token (null
config token, empty `USG_DNS_TOKEN`), both attributes fail validation
but `Configure` reports a single diagnostic, the unknown-URL one; no
token diagnostic is produced. -/
theorem configure_mixed_failure_single_diag :
    (Configure ⟨"", ""⟩ ⟨.unknown, .null⟩).1 = [unknownUrlDiag] ∧
    (Configure ⟨"", ""⟩ ⟨.unknown, .null⟩).1.length = 1 := by
  constructor <;> rfl

/-- C3 as amended: validation errors are collected per phase: when both
values are unknown both unknown diagnostics are reported together, and
when neither is unknown and both resolve to empty both missing
diagnostics are reported together; but the unknown-value check
short-circuits before the missing-value check, so an unknown URL masks a
missing token. -/
theorem configure_collects_per_phase (env : Env) (config : usgDnsProviderModel) :
    (config.URL.isUnknown = true → config.Token.isUnknown = true →
      (Configure env config).1 = [unknownUrlDiag, unknownTokenDiag]) ∧
    (config.URL.isUnknown = false → config.Token.isUnknown = false →
      resolvedUrl env config = "" → resolvedToken env config = "" →
      (Configure env config).1 = [missingUrlDiag, missingTokenDiag]) ∧
    (config.URL.isUnknown = true → missingTokenDiag ∉ (Configure env config).1) := by
  refine ⟨?_, ?_, ?_⟩
  · intro h1 h2
    simp [Configure, h1, h2]
  · intro h1 h2 h3 h4
    simp [Configure, h1, h2, h3, h4]
  · intro h1
    by_cases h2 : config.Token.isUnknown <;>
      simp [Configure, h1, h2, unknownUrlDiag, unknownTokenDiag, missingTokenDiag]

/-- Witness for C3 as amended: two unknown values give both unknown
diagnostics; two missing values give both missing diagnostics; and an
unknown URL with a missing token gives no token diagnostic. -/
theorem configure_collects_per_phase_witness :
    (Configure ⟨"", ""⟩ ⟨.unknown, .unknown⟩).1 = [unknownUrlDiag, unknownTokenDiag] ∧
    (Configure ⟨"", ""⟩ ⟨.null, .null⟩).1 = [missingUrlDiag, missingTokenDiag] ∧
    missingTokenDiag ∉ (Configure ⟨"", ""⟩ ⟨.unknown, .null⟩).1 :=
  ⟨(configure_collects_per_phase ⟨"", ""⟩ ⟨.unknown, .unknown⟩).1 rfl rfl,
    (configure_collects_per_phase ⟨"", ""⟩ ⟨.null, .null⟩).2.1 rfl rfl rfl rfl,
    (configure_collects_per_phase ⟨"", ""⟩ ⟨.unknown, .null⟩).2.2 rfl⟩

/-- C10: `NewClient` succeeds on every input, so the `Configure` branch
reporting `Unable to Create usg-dns API Client` can never fire: no
diagnostic produced by `Configure` ever carries that summary. -/
theorem newClient_total_client_error_unreachable (url token : String) (env : Env)
    (config : usgDnsProviderModel) :
    (∃ cl, NewClient url token = .ok cl) ∧
    ∀ d ∈ (Configure env config).1, d.summary ≠ "Unable to Create usg-dns API Client" := by
  refine ⟨⟨_, rfl⟩, ?_⟩
  intro d hd
  by_cases h1 : config.URL.isUnknown <;> by_cases h2 : config.Token.isUnknown <;>
    by_cases h3 : resolvedUrl env config = "" <;>
    by_cases h4 : resolvedToken env config = "" <;>
    simp [Configure, h1, h2, h3, h4, NewClient] at hd <;>
    rcases hd with rfl | rfl <;> decide

/-- Witness for C10: a concrete configuration whose only diagnostic is
the unknown-URL one, whose summary is not the client-creation failure
summary, together with a concrete successful `NewClient` call. -/
theorem newClient_total_client_error_unreachable_witness :
    unknownUrlDiag.summary ≠ "Unable to Create usg-dns API Client" ∧
    ∃ cl, NewClient "http://h" "t" = .ok cl := by
  have h := newClient_total_client_error_unreachable "http://h" "t" ⟨"", ""⟩ ⟨.unknown, .null⟩
  have hm : (Configure ⟨"", ""⟩ ⟨.unknown, .null⟩).1 = [unknownUrlDiag] := rfl
  exact ⟨h.2 unknownUrlDiag (hm ▸ List.mem_singleton.mpr rfl), h.1⟩

end UsgDns
